import Mathlib

/-!
Shallow embedding of `playerController.py` (PlayerController) from the repository
"Single-and-Multi-Agent-Search-in-Maze-Games".

Conventions of the embedding:
* A maze level (`maze.current_level`) is a `List (List Int)` of cell codes
  (0 = open, 1 = wall, 3 = goal marker), indexed `[row][col]`.
* Python integers are `Int`; Python floor division `//` is `Int.fdiv`
  (both round toward negative infinity).
* Python list indexing `l[i]` is `pyGet`: a negative index wraps by adding
  `len(l)`, and an index that is still out of range raises `IndexError`,
  modelled as `none`.
* `TILE_SIZE` comes from `config.py`, which is not part of the navigation
  source; it is carried as an explicit parameter `T` everywhere
  (the spec only fixes that it is a positive scale factor).
* The mutable state of the controller that the modelled methods touch is
  `PState`: the player's pixel coordinates `player.x`/`player.y` and the
  controller's cached cell position `player_position`.
* Functions that can raise (`IndexError`) return `Option`; the replay loop
  of `follow_path`, whose `while` loop need not terminate, is given explicit
  fuel, with `ReplayRes.fuelOut` marking that the loop was still running
  when the fuel ran out (for every fuel value).
-/

/-- A maze level: rows of integer cell codes, indexed `[row][col]`. -/
abbrev Grid := List (List Int)

/-- Python list indexing `l[i]`: a negative index counts from the end
(`i + len(l)`); an index out of range after that adjustment raises
`IndexError`, modelled as `none`. -/
def pyGet (l : List α) (i : Int) : Option α :=
  let j : Int := if i < 0 then i + l.length else i
  if 0 ≤ j then l.get? j.toNat else none

/-- Python double indexing `g[i][j]` on a grid, propagating `IndexError`. -/
def pyCell (g : Grid) (i j : Int) : Option Int :=
  match pyGet g i with
  | none => none
  | some row => pyGet row j

/-- The grid is rectangular: every row has the length of row 0.
This is the documented invariant of the maze data ("all rows equal length"). -/
def Rect (g : Grid) : Prop :=
  ∀ row ∈ g, row.length = (g.headD []).length

instance : DecidablePred Rect := fun g =>
  decidable_of_iff (∀ row ∈ g, row.length = (g.headD []).length) Iff.rfl

/-- The player-visible state mutated by the controller: the pixel coordinates
`player.x`, `player.y` and the cached cell position `player_position`. -/
structure PState where
  px : Int
  py : Int
  pos : Int × Int
  deriving Repr, DecidableEq

/-- Which of the four arrow keys are pressed (the `direction` dict of
`move_player`). -/
structure Keys where
  up : Bool
  down : Bool
  left : Bool
  right : Bool
  deriving Repr, DecidableEq

/-- `PlayerController.is_valid_position(position)`: the position (a
`(row, col)` pair, named `(x, y)` in the source) is inside
`[0, len(level)) × [0, len(level[0]))` and the cell there is not a wall.
The cell lookup only happens when the bounds hold, so on a rectangular grid
it never raises. -/
def is_valid_position (g : Grid) (position : Int × Int) : Bool :=
  let x := position.1
  let y := position.2
  decide (0 ≤ x) && decide (x < (g.length : Int)) &&
    decide (0 ≤ y) && decide (y < ((g.headD []).length : Int)) &&
    decide (pyCell g x y ≠ some 1)

/-- `PlayerController.check_collision(x, y)`: derive the cell from the pixel
coordinates by floor division by the tile size and test that it is not a
wall. The source indexes the grid directly, with Python indexing semantics:
no bounds guard, negative indices wrap, and a too-large index raises
(`none`). `some true` means the move is allowed (no wall hit). -/
def check_collision (T : Nat) (g : Grid) (x y : Int) : Option Bool :=
  let row := y.fdiv T
  let column := x.fdiv T
  (pyCell g row column).map fun c => decide (c ≠ 1)

/-- The shared tail of `move_player` after a direction was selected:
first `player_position` is updated iff `is_valid_position` accepts the
prospective cell, then `player.x`/`player.y` are updated iff
`check_collision` reports no wall.  The two commits are independent. -/
def move_commit (T : Nat) (g : Grid) (new_x new_y : Int)
    (new_position : Int × Int) (s : PState) : Option PState :=
  let s1 := if is_valid_position g new_position then { s with pos := new_position } else s
  match check_collision T g new_x new_y with
  | none => none
  | some ok => some (if ok then { s1 with px := new_x, py := new_y } else s1)

/-- `PlayerController.move_player(direction)`: an `if/elif` chain picks the
first pressed key in the order up, down, left, right, computes the
prospective pixel coordinates and the prospective cached cell, and falls
through to the two independent validity checks; with no key pressed it
returns immediately. -/
def move_player (T : Nat) (g : Grid) (keys : Keys) (s : PState) : Option PState :=
  if keys.up then
    move_commit T g s.px (s.py - T) (s.pos.1 - 1, s.pos.2) s
  else if keys.down then
    move_commit T g s.px (s.py + T) (s.pos.1 + 1, s.pos.2) s
  else if keys.left then
    move_commit T g (s.px - T) s.py (s.pos.1, s.pos.2 - 1) s
  else if keys.right then
    move_commit T g (s.px + T) s.py (s.pos.1, s.pos.2 + 1) s
  else
    some s

/-- The prospective move selected by `move_player`'s `if/elif` chain:
`none` when no key is pressed, otherwise the new pixel coordinates and the
new cached cell for the highest-priority pressed key. -/
def prospectiveMove (T : Nat) (keys : Keys) (s : PState) :
    Option (Int × Int × (Int × Int)) :=
  if keys.up then some (s.px, s.py - T, (s.pos.1 - 1, s.pos.2))
  else if keys.down then some (s.px, s.py + T, (s.pos.1 + 1, s.pos.2))
  else if keys.left then some (s.px - T, s.py, (s.pos.1, s.pos.2 - 1))
  else if keys.right then some (s.px + T, s.py, (s.pos.1, s.pos.2 + 1))
  else none

/-- Keep only the highest-priority pressed key (priority up, down, left,
right), the order of `move_player`'s `if/elif` chain. -/
def prioritize (k : Keys) : Keys :=
  if k.up then ⟨true, false, false, false⟩
  else if k.down then ⟨false, true, false, false⟩
  else if k.left then ⟨false, false, true, false⟩
  else if k.right then ⟨false, false, false, true⟩
  else ⟨false, false, false, false⟩

/-- `PlayerController.reset_player_position()`: unconditionally set the pixel
coordinates to the spawn point `(TILE_SIZE, TILE_SIZE)`.  The cached
`player_position` is not touched. -/
def reset_player_position (T : Nat) (s : PState) : PState :=
  { s with px := (T : Int), py := (T : Int) }

/-- Index of the first goal marker (code 3) in one row, the inner
`for j in range(...)` loop of `find_goal_position`. -/
def find_goal_col : List Int → Option Nat
  | [] => none
  | c :: rest => if c = 3 then some 0 else (find_goal_col rest).map (· + 1)

/-- `PlayerController.find_goal_position()`: row-major scan for the first
cell whose code is the goal marker 3, `none` when absent.  The source loops
`i in range(len(level))`, `j in range(len(level[0]))`; on a rectangular grid
(the documented invariant) that is exactly a scan of each row in order,
which is how it is rendered here. -/
def find_goal_position : Grid → Option (Nat × Nat)
  | [] => none
  | row :: rest =>
    match find_goal_col row with
    | some j => some (0, j)
    | none => (find_goal_position rest).map fun p => (p.1 + 1, p.2)

/-- The cell code at `(r, c)`, `none` when out of range (plain non-negative
indexing; used to state properties of the scan). -/
def cellCode (g : Grid) (r c : Nat) : Option Int :=
  (g.get? r).bind fun row => row.get? c

/-- Cell-to-pixel conversion as done by `follow_path` (line 181):
`target_y, target_x = goal_y * TILE_SIZE, goal_x * TILE_SIZE`.  A cell
`(row, col)` maps to the pixel pair `(x, y) = (col * T, row * T)`. -/
def cell_to_pixel (T : Nat) (cell : Int × Int) : Int × Int :=
  (cell.2 * T, cell.1 * T)

/-- Pixel-to-cell conversion as done by `move_to_goal_dfs` (line 119):
`start_position = (player.y // TILE_SIZE, player.x // TILE_SIZE)`.  A pixel
pair `(x, y)` maps to the cell `(row, col) = (y // T, x // T)`. -/
def pixel_to_cell (T : Nat) (pix : Int × Int) : Int × Int :=
  (pix.2.fdiv T, pix.1.fdiv T)

/-- Outcome of a replay (`follow_path`) run under fuel:
`ok` = the loops all finished, with the final pixel position;
`err` = an `IndexError` was raised by the wall test;
`fuelOut` = the `while` loop was still running when the fuel ran out. -/
inductive ReplayRes where
  | ok (p : Int × Int)
  | err
  | fuelOut
  deriving Repr, DecidableEq

/-- One iteration of `follow_path`'s inner `while` body: step one tile along
each axis toward the target (sign of the difference per axis), test the cell
under the new pixel position, and commit the new position only if it is not
a wall (otherwise the position is unchanged).  `none` models the wall test
raising `IndexError`. -/
def follow_step (T : Nat) (g : Grid) (tx ty : Int) (p : Int × Int) :
    Option (Int × Int) :=
  let direction_x : Int := if tx > p.1 then 1 else if tx < p.1 then -1 else 0
  let direction_y : Int := if ty > p.2 then 1 else if ty < p.2 then -1 else 0
  let new_x := p.1 + direction_x * T
  let new_y := p.2 + direction_y * T
  match pyCell g (new_y.fdiv T) (new_x.fdiv T) with
  | none => none
  | some c => some (if c ≠ 1 then (new_x, new_y) else p)

/-- `follow_path`'s inner `while` loop for one target cell, with fuel:
loop while the pixel position differs from the target pixel position on
either axis, running `follow_step` each iteration. -/
def follow_target (T : Nat) (g : Grid) (tx ty : Int) :
    Nat → Int × Int → ReplayRes
  | 0, _ => ReplayRes.fuelOut
  | fuel + 1, p =>
    if p.1 = tx ∧ p.2 = ty then ReplayRes.ok p
    else
      match follow_step T g tx ty p with
      | none => ReplayRes.err
      | some p' => follow_target T g tx ty fuel p'

/-- `PlayerController.follow_path(path)`: for each `(goal_y, goal_x)` of the
path in order, run the inner while loop until the pixel position equals the
target's pixel position.  Drawing, flipping and the delay are rendering
effects with no bearing on the navigation state and are not modelled. -/
def follow_path (T : Nat) (g : Grid) (path : List (Int × Int)) (fuel : Nat)
    (p : Int × Int) : ReplayRes :=
  match path with
  | [] => ReplayRes.ok p
  | (goal_y, goal_x) :: rest =>
    match follow_target T g (goal_x * T) (goal_y * T) fuel p with
    | ReplayRes.ok p' => follow_path T g rest fuel p'
    | r => r

/-- Modelled from the spec: `dfs.py` is an external collaborator not in the
navigation source.  The controller only uses that `dfs(level, start, goal)`
returns a success flag and that `get_path()` then returns the cached path,
so the solver is an opaque record of those two observations. -/
structure DFSSolver where
  dfs : Grid → Int × Int → Int × Int → Bool
  get_path : List (Int × Int)

/-- Modelled from the spec: `astar.py` is an external collaborator not in
the navigation source.  The controller calls `find_shortest_path` with the
solver's own `heuristic1` and receives a path. -/
structure AStarSolver where
  find_shortest_path : (Int × Int → Int × Int → Int) → List (Int × Int)
  heuristic1 : Int × Int → Int × Int → Int

/-- Modelled from the spec: the A* component "exposes goal discovery as a
convenience (delegating to 4.2)", i.e. `astar_solver.find_goal_position`
performs the same row-major goal-marker scan as the controller's. -/
def astar_find_goal_position (g : Grid) : Option (Nat × Nat) :=
  find_goal_position g

/-- The message printed by `move_to_goal_astar` when no A* solver is set. -/
def astarNotInitMsg : String :=
  "A* solver not initialized. Please call set_astar_solver first."

/-- `PlayerController.move_to_goal_dfs()`: derive the start cell from the
pixel position, scan for the goal, and when the goal exists and the solver
reports success, replay the solver's path.  The `dfs_solver` field is set to
`DFS()` in the constructor, so there is no unset-solver branch; nothing is
printed on any path.  The result is the printed messages and the replay
outcome (pixel position unchanged when no replay ran). -/
def move_to_goal_dfs (T : Nat) (g : Grid) (solver : DFSSolver) (fuel : Nat)
    (s : PState) : List String × ReplayRes :=
  let start_position : Int × Int := (s.py.fdiv T, s.px.fdiv T)
  match find_goal_position g with
  | none => ([], ReplayRes.ok (s.px, s.py))
  | some goal_position =>
    if solver.dfs g start_position ((goal_position.1 : Int), (goal_position.2 : Int)) then
      ([], follow_path T g solver.get_path fuel (s.px, s.py))
    else ([], ReplayRes.ok (s.px, s.py))

/-- `PlayerController.move_to_goal_dijkstra()`: guarded by
`if self.dijkstra_solver is not None:` with no `else` — an unset solver
falls through silently, printing nothing and moving nothing.  With a solver,
derive the start cell, scan for the goal, and replay the returned path when
it is non-empty. -/
def move_to_goal_dijkstra (T : Nat) (g : Grid)
    (solver : Option (Int × Int → Int × Int → List (Int × Int)))
    (fuel : Nat) (s : PState) : List String × ReplayRes :=
  match solver with
  | none => ([], ReplayRes.ok (s.px, s.py))
  | some find_shortest_path =>
    let start_position : Int × Int := (s.py.fdiv T, s.px.fdiv T)
    match find_goal_position g with
    | none => ([], ReplayRes.ok (s.px, s.py))
    | some goal_position =>
      let path := find_shortest_path start_position
        ((goal_position.1 : Int), (goal_position.2 : Int))
      if path ≠ [] then ([], follow_path T g path fuel (s.px, s.py))
      else ([], ReplayRes.ok (s.px, s.py))

/-- `PlayerController.move_to_goal_astar()`: with no solver set it prints
`astarNotInitMsg` and returns; otherwise it asks the solver for the goal
(`astar_find_goal_position`) and, when one exists, replays the path from
`find_shortest_path(heuristic1)` when non-empty.  The `if not self.maze`
branch cannot fire for a constructed controller (a maze object is always
truthy in Python) and is not modelled. -/
def move_to_goal_astar (T : Nat) (g : Grid) (solver : Option AStarSolver)
    (fuel : Nat) (s : PState) : List String × ReplayRes :=
  match solver with
  | none => ([astarNotInitMsg], ReplayRes.ok (s.px, s.py))
  | some a =>
    let _start_position : Int × Int := (s.py.fdiv T, s.px.fdiv T)
    match astar_find_goal_position g with
    | none => ([], ReplayRes.ok (s.px, s.py))
    | some _goal_position =>
      let path := a.find_shortest_path a.heuristic1
      if path ≠ [] then ([], follow_path T g path fuel (s.px, s.py))
      else ([], ReplayRes.ok (s.px, s.py))

/-- A 3 × 6 grid whose only goal marker sits at row 2, col 5. -/
def goalGrid25 : Grid :=
  [[0, 0, 0, 0, 0, 0],
   [0, 1, 0, 0, 1, 0],
   [0, 0, 0, 0, 0, 3]]

/-- A small grid with no goal marker. -/
def noGoalGrid : Grid := [[0, 1], [1, 0]]

/-- A 2 × 2 fully open grid. -/
def openGrid2 : Grid := [[0, 0], [0, 0]]

/-- A grid whose cell (1, 0) is a wall, used to exhibit the stuck replay
loop: from pixel (0, 0) toward target cell (1, 0) every step is blocked. -/
def blockedGrid : Grid := [[0, 0], [1, 0]]

/-- Walls along row 0; open along row 1.  Probing a negative pixel
coordinate wraps to row 1 and is reported walkable. -/
def wallTopGrid : Grid := [[1, 1], [0, 0]]

/-- A grid for the dual-commit counterexample: cell (0, 1) is open but cell
(1, 1) is a wall. -/
def mixedGrid : Grid := [[0, 0], [0, 1]]

/-- C8: `reset_player_position` unconditionally sets the pixel position to
the spawn point `(TILE_SIZE, TILE_SIZE)` whatever the prior state, and it is
idempotent: a second call yields the same spawn pixel position. -/
theorem reset_player_position_spawn_idempotent (T : Nat) (s : PState) :
    (reset_player_position T s).px = (T : Int) ∧
    (reset_player_position T s).py = (T : Int) ∧
    reset_player_position T (reset_player_position T s) = reset_player_position T s :=
  ⟨rfl, rfl, rfl⟩

/-- C9: `reset_player_position` mutates only the pixel coordinates and
leaves the cached cell `player_position` untouched, so after a reset the
cached cell can disagree with the cell derived from the spawn pixel position
(here the stale cached cell (5, 5) versus derived spawn cell (1, 1)). -/
theorem reset_player_position_preserves_cached_cell (T : Nat) (s : PState) :
    (reset_player_position T s).pos = s.pos ∧
    (reset_player_position 32 ⟨0, 0, (5, 5)⟩).pos ≠
      pixel_to_cell 32 ((reset_player_position 32 ⟨0, 0, (5, 5)⟩).px,
        (reset_player_position 32 ⟨0, 0, (5, 5)⟩).py) :=
  ⟨rfl, by decide⟩

/-- C10: `move_player` applies at most one direction per call, picked by the
fixed priority up, down, left, right of its `if/elif` chain — pressing extra
lower-priority keys never changes the outcome — and with no key pressed the
call leaves the state untouched. -/
theorem move_player_key_priority (T : Nat) (g : Grid) (keys : Keys) (s : PState) :
    move_player T g keys s = move_player T g (prioritize keys) s ∧
    move_player T g ⟨false, false, false, false⟩ s = some s := by
  obtain ⟨u, d, l, r⟩ := keys
  exact ⟨by cases u <;> cases d <;> cases l <;> cases r <;> rfl, rfl⟩

/-- C7: converting an in-bounds cell `(row, col)` to its pixel position
`(col * T, row * T)` and back by floor division by the tile size recovers
the original cell. -/
theorem cell_pixel_roundtrip (T : Nat) (g : Grid) (r c : Nat) (hT : 0 < T)
    (_hr : r < g.length) (_hc : c < (g.headD []).length) :
    pixel_to_cell T (cell_to_pixel T ((r : Int), (c : Int))) = ((r : Int), (c : Int)) := by
  have hT' : (T : Int) ≠ 0 := by exact_mod_cast hT.ne'
  simp [pixel_to_cell, cell_to_pixel, Int.mul_fdiv_cancel _ hT']

/-- Witness for C7 at tile size 32 and cell (1, 1) of the open 2 × 2 grid. -/
theorem cell_pixel_roundtrip_witness :
    pixel_to_cell 32 (cell_to_pixel 32 ((1 : Int), (1 : Int))) = ((1 : Int), (1 : Int)) :=
  cell_pixel_roundtrip 32 openGrid2 1 1 (by decide) (by decide) (by decide)

/-- On `blockedGrid`, replaying toward target cell (1, 0) from pixel (0, 0)
never commits a step: every iteration recomputes the same blocked step, so
the loop runs the whole fuel out, for every fuel. -/
theorem follow_target_blocked_stuck (fuel : Nat) :
    follow_target 32 blockedGrid (0 * (32 : Nat) : Int) (1 * (32 : Nat) : Int)
      fuel (0, 0) = ReplayRes.fuelOut := by
  induction fuel with
  | zero => rfl
  | succ n ih =>
    have hstep : follow_step 32 blockedGrid (0 * (32 : Nat) : Int)
        (1 * (32 : Nat) : Int) (0, 0) = some (0, 0) := by decide
    unfold follow_target
    rw [if_neg (by decide), hstep]
    exact ih

/-- C3: `follow_path` does not always terminate.  On `blockedGrid`, with the
agent at pixel (0, 0) and the single-target path [(1, 0)], the wall test
fails every iteration while the position still differs from the target, so
the while loop re-evaluates the same state forever: the run exhausts any
amount of fuel. -/
theorem follow_path_blocked_step_diverges (fuel : Nat) :
    follow_path 32 blockedGrid [(1, 0)] fuel (0, 0) = ReplayRes.fuelOut := by
  unfold follow_path
  simp only [follow_target_blocked_stuck]

/-- Unfolded form of `move_commit`: the cached-cell commit depends only on
`is_valid_position` and the pixel commit only on `check_collision`. -/
theorem move_commit_eq (T : Nat) (g : Grid) (nx ny : Int) (np : Int × Int)
    (s : PState) :
    move_commit T g nx ny np s =
      (check_collision T g nx ny).map fun ok =>
        { px := if ok then nx else s.px,
          py := if ok then ny else s.py,
          pos := if is_valid_position g np then np else s.pos } := by
  unfold move_commit
  cases h : check_collision T g nx ny with
  | none => rfl
  | some ok => cases ok <;> cases hv : is_valid_position g np <;> simp [hv]

/-- C1 (counterexample): the two checks of `move_player` commit separately.
With the cached cell at (0, 0) but the pixel position over cell (1, 0) of
`mixedGrid`, pressing right passes the cell-space check (cell (0, 1) open)
while the pixel-space check fails (cell (1, 1) wall): the cached cell is
mutated to (0, 1) even though the checks disagree and the pixel position
stays put. -/
theorem move_player_desync_cx :
    move_player 32 mixedGrid ⟨false, false, false, true⟩ ⟨0, 32, (0, 0)⟩ =
      some ⟨0, 32, (0, 1)⟩ ∧
    check_collision 32 mixedGrid 32 32 = some false ∧
    is_valid_position mixedGrid (0, 1) = true := by
  refine ⟨by decide, by decide, by decide⟩

/-- C1 (amended): for every directional input, `move_player` commits the two
position representations independently rather than jointly — the cached cell
position is updated exactly when the cell-space check `is_valid_position`
passes, and the pixel position exactly when the pixel-space check
`check_collision` reports no wall (an out-of-range pixel probe raises
instead); with no key pressed nothing is mutated. -/
theorem move_player_commits_each_check_independently (T : Nat) (g : Grid)
    (keys : Keys) (s : PState) :
    move_player T g keys s =
      match prospectiveMove T keys s with
      | none => some s
      | some (nx, ny, np) =>
        (check_collision T g nx ny).map fun ok =>
          { px := if ok then nx else s.px,
            py := if ok then ny else s.py,
            pos := if is_valid_position g np then np else s.pos } := by
  obtain ⟨u, d, l, r⟩ := keys
  cases u <;> cases d <;> cases l <;> cases r <;>
    simp only [move_player, prospectiveMove, move_commit_eq, Bool.false_eq_true,
      if_true, if_false]

/-- C2 (counterexample): a single committed replay step can be diagonal.  On
the open 2 × 2 grid, stepping from pixel (0, 0) toward target pixel
(32, 32) commits (32, 32): both x and y change by one tile size in the same
iteration. -/
theorem follow_step_diagonal_cx :
    follow_step 32 openGrid2 32 32 (0, 0) = some (32, 32) ∧
    ((32 : Int) ≠ 0 ∧ (32 : Int) ≠ 0) := by
  refine ⟨by decide, by decide, by decide⟩

/-- C2 (amended): a committed replay step that changes the position moves
each axis by exactly one tile size exactly when that axis is misaligned with
the target — so when both axes are misaligned the step changes both x and y
in the same iteration (a diagonal step), and when exactly one axis is
misaligned only that axis changes. -/
theorem follow_step_changes_each_misaligned_axis (T : Nat) (g : Grid)
    (tx ty : Int) (p p' : Int × Int) (hT : 0 < T)
    (h : follow_step T g tx ty p = some p') (hmoved : p' ≠ p) :
    (p'.1 ≠ p.1 ↔ p.1 ≠ tx) ∧ (p'.2 ≠ p.2 ↔ p.2 ≠ ty) ∧
    (p'.1 = p.1 ∨ p'.1 = p.1 + T ∨ p'.1 = p.1 - T) ∧
    (p'.2 = p.2 ∨ p'.2 = p.2 + T ∨ p'.2 = p.2 - T) := by
  unfold follow_step at h
  dsimp only at h
  cases hc : pyCell g
      ((p.2 + (if ty > p.2 then 1 else if ty < p.2 then -1 else 0) * T).fdiv T)
      ((p.1 + (if tx > p.1 then 1 else if tx < p.1 then -1 else 0) * T).fdiv T) with
  | none => rw [hc] at h; exact absurd h (by simp)
  | some c =>
    rw [hc] at h
    dsimp only at h
    rw [Option.some.injEq] at h
    by_cases hcw : c = 1
    · rw [if_neg (by simp [hcw])] at h
      exact absurd h.symm hmoved
    · rw [if_pos hcw] at h
      subst h
      simp only [gt_iff_lt]
      refine ⟨?_, ?_, ?_, ?_⟩ <;> split_ifs <;> omega

/-- Witness for the amended C2 at a single-axis step: from pixel (0, 0)
toward target pixel (32, 0) on the open grid the committed step is (32, 0),
changing x (misaligned) and not y (aligned). -/
theorem follow_step_changes_each_misaligned_axis_witness :
    (((32 : Int), (0 : Int)).1 ≠ (((0 : Int), (0 : Int)) : Int × Int).1 ↔
      (((0 : Int), (0 : Int)) : Int × Int).1 ≠ (32 : Int)) ∧
    (((32 : Int), (0 : Int)).2 ≠ (((0 : Int), (0 : Int)) : Int × Int).2 ↔
      (((0 : Int), (0 : Int)) : Int × Int).2 ≠ (0 : Int)) ∧
    (((32 : Int), (0 : Int)).1 = (((0 : Int), (0 : Int)) : Int × Int).1 ∨
      ((32 : Int), (0 : Int)).1 = (((0 : Int), (0 : Int)) : Int × Int).1 + (32 : Nat) ∨
      ((32 : Int), (0 : Int)).1 = (((0 : Int), (0 : Int)) : Int × Int).1 - (32 : Nat)) ∧
    (((32 : Int), (0 : Int)).2 = (((0 : Int), (0 : Int)) : Int × Int).2 ∨
      ((32 : Int), (0 : Int)).2 = (((0 : Int), (0 : Int)) : Int × Int).2 + (32 : Nat) ∨
      ((32 : Int), (0 : Int)).2 = (((0 : Int), (0 : Int)) : Int × Int).2 - (32 : Nat)) :=
  follow_step_changes_each_misaligned_axis 32 openGrid2 32 0 (0, 0) (32, 0)
    (by decide) (by decide) (by decide)

/-- C4 (counterexample): `check_collision` does not reject an out-of-bounds
pixel-derived cell.  On `wallTopGrid` the pixel (0, -32) derives the cell
(-1, 0), which is outside the grid, yet the Python-style negative index
wraps to the last row and the probe is reported walkable (`some true`)
instead of being rejected. -/
theorem check_collision_wraps_cx :
    check_collision 32 wallTopGrid 0 (-32) = some true ∧
    pixel_to_cell 32 (0, -32) = (-1, 0) := by
  refine ⟨by decide, by decide⟩

/-- C4 (amended): only `is_valid_position` treats every cell outside
`[0, rows) × [0, cols)` as not walkable and returns false there;
`check_collision` and the replay-step validation index the grid directly
with Python semantics, so a negative derived index wraps to a cell counted
from the end (and may be accepted) and a too-large index raises instead of
rejecting. -/
theorem is_valid_position_rejects_out_of_bounds (g : Grid) (position : Int × Int)
    (h : position.1 < 0 ∨ (g.length : Int) ≤ position.1 ∨ position.2 < 0 ∨
      ((g.headD []).length : Int) ≤ position.2) :
    is_valid_position g position = false := by
  cases hb : is_valid_position g position with
  | false => rfl
  | true =>
    exfalso
    simp only [is_valid_position, Bool.and_eq_true, decide_eq_true_eq] at hb
    obtain ⟨⟨⟨⟨h1, h2⟩, h3⟩, h4⟩, -⟩ := hb
    rcases h with h | h | h | h <;> omega

/-- Witness for the amended C4: the cell (-1, 0) lies outside `wallTopGrid`
and `is_valid_position` rejects it. -/
theorem is_valid_position_rejects_out_of_bounds_witness :
    is_valid_position wallTopGrid (-1, 0) = false :=
  is_valid_position_rejects_out_of_bounds wallTopGrid (-1, 0) (Or.inl (by decide))

/-- C5 (counterexample): with the Dijkstra solver unset but a goal present,
`move_to_goal_dijkstra` performs no movement but also emits no report at
all — the message list is empty rather than a "solver not configured"
report (the `if self.dijkstra_solver is not None:` guard has no else). -/
theorem move_to_goal_dijkstra_silent_cx :
    move_to_goal_dijkstra 32 goalGrid25 none 3 ⟨32, 32, (1, 1)⟩ =
      ([], ReplayRes.ok (32, 32)) := by
  rfl

/-- C5 (amended): on the error paths no movement ever occurs, but the
reporting is uneven: an unset Dijkstra solver is skipped silently (no
message), an unset A* solver prints its "not initialized" message, the DFS
solver is always set by the constructor so no unset branch exists, and a
missing goal is skipped silently by every strategy (no "goal not found"
report). -/
theorem move_to_goal_missing_solver_or_goal (T : Nat) (g : Grid) (fuel : Nat)
    (s : PState) (dsolver : Int × Int → Int × Int → List (Int × Int))
    (asolver : AStarSolver) (fsolver : DFSSolver)
    (hg : find_goal_position g = none) :
    move_to_goal_dijkstra T g none fuel s = ([], ReplayRes.ok (s.px, s.py)) ∧
    move_to_goal_dijkstra T g (some dsolver) fuel s = ([], ReplayRes.ok (s.px, s.py)) ∧
    move_to_goal_astar T g none fuel s = ([astarNotInitMsg], ReplayRes.ok (s.px, s.py)) ∧
    move_to_goal_astar T g (some asolver) fuel s = ([], ReplayRes.ok (s.px, s.py)) ∧
    move_to_goal_dfs T g fsolver fuel s = ([], ReplayRes.ok (s.px, s.py)) := by
  refine ⟨rfl, ?_, rfl, ?_, ?_⟩ <;>
    simp only [move_to_goal_dijkstra, move_to_goal_astar, move_to_goal_dfs,
      astar_find_goal_position, hg]

/-- Witness for the amended C5 on the goal-free grid with concrete solvers:
every error path returns the unchanged pixel position and only the unset A*
solver produces a message. -/
theorem move_to_goal_missing_solver_or_goal_witness :
    move_to_goal_dijkstra 32 noGoalGrid none 3 ⟨32, 32, (1, 1)⟩ =
      ([], ReplayRes.ok (32, 32)) ∧
    move_to_goal_dijkstra 32 noGoalGrid (some fun _ _ => []) 3 ⟨32, 32, (1, 1)⟩ =
      ([], ReplayRes.ok (32, 32)) ∧
    move_to_goal_astar 32 noGoalGrid none 3 ⟨32, 32, (1, 1)⟩ =
      ([astarNotInitMsg], ReplayRes.ok (32, 32)) ∧
    move_to_goal_astar 32 noGoalGrid (some ⟨fun _ => [], fun _ _ => 0⟩) 3
      ⟨32, 32, (1, 1)⟩ = ([], ReplayRes.ok (32, 32)) ∧
    move_to_goal_dfs 32 noGoalGrid ⟨fun _ _ _ => false, []⟩ 3 ⟨32, 32, (1, 1)⟩ =
      ([], ReplayRes.ok (32, 32)) :=
  move_to_goal_missing_solver_or_goal 32 noGoalGrid 3 ⟨32, 32, (1, 1)⟩
    (fun _ _ => []) ⟨fun _ => [], fun _ _ => 0⟩ ⟨fun _ _ _ => false, []⟩ (by decide)

/-- `find_goal_col` returns `none` exactly when no entry of the row is the
goal marker 3. -/
theorem find_goal_col_eq_none (row : List Int) :
    find_goal_col row = none ↔ ∀ k, row.get? k ≠ some 3 := by
  induction row with
  | nil => simp [find_goal_col]
  | cons c rest ih =>
    by_cases hc : c = 3
    · subst hc
      simp only [find_goal_col, if_pos rfl]
      constructor
      · intro h; exact absurd h (by simp)
      · intro h; exact absurd (h 0) (by simp)
    · simp only [find_goal_col, if_neg hc, Option.map_eq_none', ih]
      constructor
      · intro h k
        cases k with
        | zero => simpa using hc
        | succ k => simpa using h k
      · intro h k
        simpa using h (k + 1)

/-- `find_goal_col` returns `some j` exactly when entry `j` of the row is
the goal marker 3 and no earlier entry is. -/
theorem find_goal_col_eq_some (row : List Int) (j : Nat) :
    find_goal_col row = some j ↔
      row.get? j = some 3 ∧ ∀ k, k < j → row.get? k ≠ some 3 := by
  induction row generalizing j with
  | nil => simp [find_goal_col]
  | cons c rest ih =>
    by_cases hc : c = 3
    · subst hc
      simp only [find_goal_col, if_pos rfl]
      cases j with
      | zero => simp
      | succ j =>
        constructor
        · intro h; exact absurd h (by simp)
        · rintro ⟨-, hmin⟩
          exact absurd (hmin 0 (Nat.succ_pos j)) (by simp)
    · simp only [find_goal_col, if_neg hc]
      cases j with
      | zero =>
        constructor
        · intro h
          rcases Option.map_eq_some'.mp h with ⟨j', -, hj'⟩
          exact absurd hj' (by omega)
        · rintro ⟨h0, -⟩
          exact absurd (by simpa using h0) hc
      | succ j =>
        constructor
        · intro h
          rcases Option.map_eq_some'.mp h with ⟨j', hj', heq⟩
          have hjj : j' = j := by omega
          rw [hjj] at hj'
          rcases (ih j).mp hj' with ⟨hg, hmin⟩
          refine ⟨by simpa using hg, ?_⟩
          intro k hk
          cases k with
          | zero => simpa using hc
          | succ k => simpa using hmin k (by omega)
        · rintro ⟨hg, hmin⟩
          have hrest : find_goal_col rest = some j := by
            refine (ih j).mpr ⟨by simpa using hg, ?_⟩
            intro k hk
            simpa using hmin (k + 1) (by omega)
          simp [hrest]

/-- Two positions that are both a first goal marker of the same row agree. -/
theorem first_goal_unique {row : List Int} {j c : Nat}
    (hj : row.get? j = some 3) (hjmin : ∀ k, k < j → row.get? k ≠ some 3)
    (hc : row.get? c = some 3) (hcmin : ∀ k, k < c → row.get? k ≠ some 3) :
    j = c := by
  rcases Nat.lt_trichotomy j c with h | h | h
  · exact absurd hj (hcmin j h)
  · exact h
  · exact absurd hc (hjmin c h)

/-- The row-major scan reports `none` exactly when no cell carries the goal
marker 3. -/
theorem find_goal_position_eq_none (g : Grid) :
    find_goal_position g = none ↔ ∀ r c, cellCode g r c ≠ some 3 := by
  induction g with
  | nil => simp [find_goal_position, cellCode]
  | cons row rest ih =>
    cases hrow : find_goal_col row with
    | some j =>
      simp only [find_goal_position, hrow]
      constructor
      · intro h; exact absurd h (by simp)
      · intro h
        rcases (find_goal_col_eq_some row j).mp hrow with ⟨hg, -⟩
        exact absurd hg (by simpa [cellCode] using h 0 j)
    | none =>
      have hrownone := (find_goal_col_eq_none row).mp hrow
      simp only [find_goal_position, hrow, Option.map_eq_none', ih]
      constructor
      · intro h r c
        cases r with
        | zero => simpa [cellCode] using hrownone c
        | succ r => simpa [cellCode] using h r c
      · intro h r c
        simpa [cellCode] using h (r + 1) c

/-- The row-major scan reports `some (r, c)` exactly when `(r, c)` carries
the goal marker 3 and is lexicographically least among marked cells: no
earlier row holds a marker and no earlier column of row `r` does. -/
theorem find_goal_position_eq_some (g : Grid) (r c : Nat) :
    find_goal_position g = some (r, c) ↔
      cellCode g r c = some 3 ∧
      (∀ r' c', r' < r → cellCode g r' c' ≠ some 3) ∧
      (∀ c' < c, cellCode g r c' ≠ some 3) := by
  induction g generalizing r with
  | nil => simp [find_goal_position, cellCode]
  | cons row rest ih =>
    cases hrow : find_goal_col row with
    | some j =>
      rcases (find_goal_col_eq_some row j).mp hrow with ⟨hg, hmin⟩
      simp only [find_goal_position, hrow, Option.some.injEq, Prod.mk.injEq]
      cases r with
      | zero =>
        constructor
        · rintro ⟨-, rfl⟩
          refine ⟨by simpa [cellCode] using hg, ?_, ?_⟩
          · intro r' c' hr'; exact absurd hr' (Nat.not_lt_zero r')
          · intro c' hc'
            simpa [cellCode] using hmin c' hc'
        · rintro ⟨hgc, -, hminc⟩
          refine ⟨rfl, ?_⟩
          exact first_goal_unique hg hmin (by simpa [cellCode] using hgc)
            (fun k hk => by simpa [cellCode] using hminc k hk)
      | succ r =>
        constructor
        · rintro ⟨h0, -⟩; exact absurd h0 (by omega)
        · rintro ⟨-, hless, -⟩
          exact absurd hg (by simpa [cellCode] using hless 0 j (Nat.succ_pos r))
    | none =>
      have hrownone := (find_goal_col_eq_none row).mp hrow
      simp only [find_goal_position, hrow, Option.map_eq_some']
      cases r with
      | zero =>
        constructor
        · rintro ⟨p, -, hp⟩
          have := congrArg Prod.fst hp
          exact absurd this (by simp)
        · rintro ⟨hgc, -, -⟩
          exact absurd (by simpa [cellCode] using hgc) (hrownone c)
      | succ r =>
        constructor
        · rintro ⟨⟨pr, pc⟩, hp, heq⟩
          simp only [Prod.mk.injEq] at heq
          obtain ⟨h1, h2⟩ := heq
          rw [show pr = r by omega, h2] at hp
          rcases (ih r).mp hp with ⟨hg', hless', hminc'⟩
          refine ⟨by simpa [cellCode] using hg', ?_, ?_⟩
          · intro r' c' hr'
            cases r' with
            | zero => simpa [cellCode] using hrownone c'
            | succ r' => simpa [cellCode] using hless' r' c' (by omega)
          · intro c' hc'
            simpa [cellCode] using hminc' c' hc'
        · rintro ⟨hgc, hless, hminc⟩
          refine ⟨(r, c), ?_, by simp⟩
          refine (ih r).mpr ⟨by simpa [cellCode] using hgc, ?_, ?_⟩
          · intro r' c' hr'
            simpa [cellCode] using hless (r' + 1) c' (by omega)
          · intro c' hc'
            simpa [cellCode] using hminc c' hc'

/-- C6: on a rectangular grid `find_goal_position` performs a row-major scan
returning the first cell whose code equals the goal marker 3 — the
lexicographically smallest `(row, col)` among goal-marked cells — and
returns `none` when no cell carries the marker; in particular on a grid
whose only marker sits at row 2, col 5 it returns (2, 5), and on a
marker-free grid it returns `none`. -/
theorem find_goal_position_first_goal (g : Grid) (_hrect : Rect g) :
    (∀ r c, find_goal_position g = some (r, c) ↔
        cellCode g r c = some 3 ∧
        (∀ r' c', r' < r → cellCode g r' c' ≠ some 3) ∧
        (∀ c' < c, cellCode g r c' ≠ some 3)) ∧
    (find_goal_position g = none ↔ ∀ r c, cellCode g r c ≠ some 3) ∧
    find_goal_position goalGrid25 = some (2, 5) ∧
    find_goal_position noGoalGrid = none :=
  ⟨fun r c => find_goal_position_eq_some g r c, find_goal_position_eq_none g,
    by decide, by decide⟩

/-- Witness for C6 on the grid whose only marker sits at (2, 5). -/
theorem find_goal_position_first_goal_witness :
    (∀ r c, find_goal_position goalGrid25 = some (r, c) ↔
        cellCode goalGrid25 r c = some 3 ∧
        (∀ r' c', r' < r → cellCode goalGrid25 r' c' ≠ some 3) ∧
        (∀ c' < c, cellCode goalGrid25 r c' ≠ some 3)) ∧
    (find_goal_position goalGrid25 = none ↔ ∀ r c, cellCode goalGrid25 r c ≠ some 3) ∧
    find_goal_position goalGrid25 = some (2, 5) ∧
    find_goal_position noGoalGrid = none :=
  find_goal_position_first_goal goalGrid25 (by decide)
